import Mathlib

/-!
# Verification of the rusty-pomodoro timer state machine

Shallow embedding of `src/main.rs`. The GUI widgets are out of scope; we
model the data (`State`, `Mode`, `PomodoroMessage`, the `Pomodoro` record),
the `update` transition function, the initial state built by `new`, and the
`MM:SS` formatting done in `view`.

Rust's `std::time::Duration` is a non-negative span of time with nanosecond
resolution; we model it as a `Nat` counting nanoseconds.  `Instant` is a
monotonic timestamp; we model it as a `Nat` of nanoseconds since an
arbitrary epoch.  `Instant` subtraction (`now - last_tick`) requires
`now ≥ last_tick` in Rust (it panics otherwise, and the monotonic clock
guarantees it in the program); `Nat` subtraction agrees on that domain.
`Duration::checked_sub(d).unwrap_or_default()` is exactly saturating
subtraction, which is `Nat` subtraction.

Events that read `Instant::now()` in the source (`Start`, `Resume`, `Tick`)
carry the sampled timestamp `now` as an explicit argument.
-/

namespace RustyPomodoro

/-- Nanoseconds per second: the resolution of `std::time::Duration`. -/
def nanosPerSec : Nat := 1000000000

/-- `Duration::from_secs`. -/
def fromSecs (s : Nat) : Nat := s * nanosPerSec

/-- `Duration::as_secs`: whole seconds of a duration in nanoseconds. -/
def asSecs (d : Nat) : Nat := d / nanosPerSec

/-- `enum State { Idle, Paused, Running }` from `src/main.rs`. -/
inductive State where
  | Idle
  | Paused
  | Running
deriving DecidableEq

/-- `enum Mode { Work, LongBreak, ShortBreak }` from `src/main.rs`. -/
inductive Mode where
  | Work
  | LongBreak
  | ShortBreak
deriving DecidableEq

/-- `enum PomodoroMessage` from `src/main.rs`.  The arms that call
`Instant::now()` in `update` carry the sampled timestamp. -/
inductive PomodoroMessage where
  | Start (now : Nat)
  | Pause
  | Resume (now : Nat)
  | SwitchMode (mode : Mode)
  | Reset
  | Tick (now : Nat)
deriving DecidableEq

/-- `struct Pomodoro { state, mode, timer, last_tick }` from `src/main.rs`. -/
structure Pomodoro where
  state : State
  mode : Mode
  timer : Nat
  last_tick : Nat
deriving DecidableEq

/-- `const WORK: Duration = Duration::from_secs(25 * 60)` in `update`. -/
def WORK : Nat := fromSecs (25 * 60)

/-- `const SHORT_BREAK: Duration = Duration::from_secs(5 * 60)` in `update`. -/
def SHORT_BREAK : Nat := fromSecs (5 * 60)

/-- `const LONG_BREAK: Duration = Duration::from_secs(15 * 60)` in `update`. -/
def LONG_BREAK : Nat := fromSecs (15 * 60)

/-- The `match self.mode { Work => WORK, ShortBreak => SHORT_BREAK,
LongBreak => LONG_BREAK }` expression that the `Start`, `SwitchMode` and
`Reset` arms of `update` each inline. -/
def durationFor (m : Mode) : Nat :=
  match m with
  | Mode.Work => WORK
  | Mode.ShortBreak => SHORT_BREAK
  | Mode.LongBreak => LONG_BREAK

/-- `Pomodoro::new`: `state: Idle, mode: Work, timer: from_secs(25*60),
last_tick: Instant::now()`. -/
def new (now : Nat) : Pomodoro :=
  { state := State.Idle, mode := Mode.Work, timer := fromSecs (25 * 60),
    last_tick := now }

/-- `Pomodoro::update` from `src/main.rs` (the returned `Command::none()`
carries no information and is dropped).  In the `Tick` arm, the source sets
`state = Idle` inside `if self.timer.as_secs() == 0` and otherwise leaves
the state as it was, which inside the `if let State::Running` guard is
`Running`. -/
def update (s : Pomodoro) (message : PomodoroMessage) : Pomodoro :=
  match message with
  | PomodoroMessage.Start now =>
      { s with timer := durationFor s.mode, last_tick := now,
               state := State.Running }
  | PomodoroMessage.Resume now =>
      { s with last_tick := now, state := State.Running }
  | PomodoroMessage.SwitchMode mode =>
      { s with state := State.Idle, mode := mode, timer := durationFor mode }
  | PomodoroMessage.Pause =>
      { s with state := State.Paused }
  | PomodoroMessage.Reset =>
      { s with state := State.Idle, timer := durationFor s.mode }
  | PomodoroMessage.Tick now =>
      match s.state with
      | State.Running =>
          let delta := now - s.last_tick
          let timer := s.timer - delta
          { s with last_tick := now, timer := timer,
                   state := if asSecs timer = 0 then State.Idle
                            else State.Running }
      | _ => s

/-- `const HOUR: u64 = 60 * 60` in `view`. -/
def HOUR : Nat := 60 * 60

/-- `const MINUTE: u64 = 60` in `view`. -/
def MINUTE : Nat := 60

/-- Rust's `{:0>2}` format spec: right-align in a field of width 2,
filling with the character `0`. -/
def padStart2 (t : String) : String :=
  String.mk (List.replicate (2 - t.length) '0') ++ t

/-- The timer text built in `view`:
`format!("{:0>2}:{:0>2}", (seconds % HOUR) / MINUTE, seconds % MINUTE)`
where `seconds = self.timer.as_secs()`. -/
def viewTimerText (s : Pomodoro) : String :=
  let seconds := asSecs s.timer
  padStart2 (toString ((seconds % HOUR) / MINUTE)) ++ ":" ++
    padStart2 (toString (seconds % MINUTE))

/-- Modelled from the spec (claim C8's wording): whole seconds formatted as
`MM:SS` with minutes `(total mod 3600) / 60` and seconds `total mod 60`,
each zero-padded to two digits. -/
def specTimerText (total : Nat) : String :=
  (if (total % 3600) / 60 < 10 then "0" ++ toString ((total % 3600) / 60)
   else toString ((total % 3600) / 60)) ++ ":" ++
  (if total % 60 < 10 then "0" ++ toString (total % 60)
   else toString (total % 60))

/-! ## Helper lemmas -/

theorem asSecs_eq_zero_iff (d : Nat) : asSecs d = 0 ↔ d < nanosPerSec := by
  unfold asSecs
  exact Nat.div_eq_zero_iff (by norm_num [nanosPerSec])

/-! ## Theorems -/

/-- C1: for every state with `run_state == Running`, applying `Tick` with
elapsed wall-time `d` since `last_tick` sets `last_tick` to `now` and
decreases `remaining` by exactly `d`, saturating at zero (never negative);
for every state with `run_state != Running`, applying `Tick` leaves the
entire state unchanged. -/
theorem tick_decrements_by_delta_and_noop_otherwise
    (s : Pomodoro) (now d : Nat) :
    (s.state = State.Running → now = s.last_tick + d →
      (update s (PomodoroMessage.Tick now)).last_tick = now ∧
      (d ≤ s.timer →
        (update s (PomodoroMessage.Tick now)).timer + d = s.timer) ∧
      (s.timer ≤ d → (update s (PomodoroMessage.Tick now)).timer = 0)) ∧
    (s.state ≠ State.Running → update s (PomodoroMessage.Tick now) = s) := by
  obtain ⟨st, m, t, lt⟩ := s
  constructor
  · intro hrun hnow
    simp only at hrun
    subst hrun
    simp only at hnow
    subst hnow
    refine ⟨rfl, ?_, ?_⟩ <;> simp [update] <;> omega
  · intro hnot
    cases st <;> simp_all [update]

/-- Witness for C1 at a concrete running state and a concrete idle state. -/
theorem tick_decrements_by_delta_and_noop_otherwise_witness :
    (update { state := State.Running, mode := Mode.Work,
              timer := fromSecs 1500, last_tick := 0 }
       (PomodoroMessage.Tick 5)).last_tick = 5 ∧
    update { state := State.Idle, mode := Mode.Work,
             timer := fromSecs 1500, last_tick := 0 }
      (PomodoroMessage.Tick 5) =
      { state := State.Idle, mode := Mode.Work,
        timer := fromSecs 1500, last_tick := 0 } :=
  ⟨((tick_decrements_by_delta_and_noop_otherwise
      { state := State.Running, mode := Mode.Work,
        timer := fromSecs 1500, last_tick := 0 } 5 5).1 rfl rfl).1,
   (tick_decrements_by_delta_and_noop_otherwise
      { state := State.Idle, mode := Mode.Work,
        timer := fromSecs 1500, last_tick := 0 } 5 5).2 (by decide)⟩

/-- C4: for every prior state, applying `Start` sets `remaining` to the
canonical duration of the current mode (Work = 1500 s, ShortBreak = 300 s,
LongBreak = 900 s), sets `run_state` to `Running`, and leaves `mode`
unchanged. -/
theorem start_resets_to_canonical_and_runs (s : Pomodoro) (now : Nat) :
    (update s (PomodoroMessage.Start now)).timer = durationFor s.mode ∧
    (update s (PomodoroMessage.Start now)).state = State.Running ∧
    (update s (PomodoroMessage.Start now)).mode = s.mode ∧
    durationFor Mode.Work = fromSecs 1500 ∧
    durationFor Mode.ShortBreak = fromSecs 300 ∧
    durationFor Mode.LongBreak = fromSecs 900 := by
  refine ⟨rfl, rfl, rfl, ?_, ?_, ?_⟩ <;> rfl

/-- C5: for every prior state and every mode `m`, applying `SwitchMode(m)`
yields `mode == m`, `remaining == canonical_duration(m)`, and
`run_state == Idle`. -/
theorem switchMode_sets_mode_resets_and_idles (s : Pomodoro) (m : Mode) :
    (update s (PomodoroMessage.SwitchMode m)).mode = m ∧
    (update s (PomodoroMessage.SwitchMode m)).timer = durationFor m ∧
    (update s (PomodoroMessage.SwitchMode m)).state = State.Idle := by
  exact ⟨rfl, rfl, rfl⟩

/-- C6: for every prior state, applying `Reset` sets `remaining` to the
canonical duration of the current mode and `run_state` to `Idle`, and
leaves `mode` unchanged. -/
theorem reset_restores_canonical_and_idles (s : Pomodoro) :
    (update s PomodoroMessage.Reset).timer = durationFor s.mode ∧
    (update s PomodoroMessage.Reset).state = State.Idle ∧
    (update s PomodoroMessage.Reset).mode = s.mode := by
  exact ⟨rfl, rfl, rfl⟩

/-- C10: applying `Resume` in any run state sets `run_state` to `Running`
and refreshes `last_tick` to `now`, leaving `remaining` and `mode`
unchanged; in particular, applied after expiry it re-enters `Running` with
`remaining == 0` (the `timer` component is carried over verbatim). -/
theorem resume_runs_refreshes_last_tick_frames_rest
    (s : Pomodoro) (now : Nat) :
    (update s (PomodoroMessage.Resume now)).state = State.Running ∧
    (update s (PomodoroMessage.Resume now)).last_tick = now ∧
    (update s (PomodoroMessage.Resume now)).timer = s.timer ∧
    (update s (PomodoroMessage.Resume now)).mode = s.mode := by
  exact ⟨rfl, rfl, rfl, rfl⟩

/-- Counterexample to C2 as stated: from a `Running` state with 1.5 s
remaining, a `Tick` after 1 s leaves a strictly positive remaining
(0.5 s), yet the run state becomes `Idle` rather than staying `Running`
(the source tests `timer.as_secs() == 0`, not `timer == 0`). -/
theorem tick_positive_remaining_goes_idle_counterexample :
    0 < (update { state := State.Running, mode := Mode.Work,
                  timer := 1500000000, last_tick := 0 }
          (PomodoroMessage.Tick 1000000000)).timer ∧
    (update { state := State.Running, mode := Mode.Work,
              timer := 1500000000, last_tick := 0 }
      (PomodoroMessage.Tick 1000000000)).state = State.Idle := by
  constructor <;> decide

/-- C2 (amended): for every `Running` state, after processing a `Tick` the
controller is in run state `Idle` if the decremented remaining holds zero
whole seconds (is below 1 s), and remains `Running` if the decremented
remaining is at least 1 s; it never auto-increases `remaining` and never
auto-advances `mode` on expiry. -/
theorem tick_running_transitions (s : Pomodoro) (now : Nat)
    (h : s.state = State.Running) :
    ((update s (PomodoroMessage.Tick now)).timer < nanosPerSec →
      (update s (PomodoroMessage.Tick now)).state = State.Idle) ∧
    (nanosPerSec ≤ (update s (PomodoroMessage.Tick now)).timer →
      (update s (PomodoroMessage.Tick now)).state = State.Running) ∧
    (update s (PomodoroMessage.Tick now)).timer ≤ s.timer ∧
    (update s (PomodoroMessage.Tick now)).mode = s.mode := by
  obtain ⟨st, m, t, lt⟩ := s
  simp only at h
  subst h
  refine ⟨?_, ?_, ?_, rfl⟩
  · intro hlt
    have hlt2 : t - (now - lt) < nanosPerSec := hlt
    show (if asSecs (t - (now - lt)) = 0 then State.Idle
          else State.Running) = State.Idle
    rw [if_pos ((asSecs_eq_zero_iff _).mpr hlt2)]
  · intro hge
    have hge2 : nanosPerSec ≤ t - (now - lt) := hge
    show (if asSecs (t - (now - lt)) = 0 then State.Idle
          else State.Running) = State.Running
    rw [if_neg]
    intro hz
    exact absurd ((asSecs_eq_zero_iff _).mp hz) (by omega)
  · show t - (now - lt) ≤ t
    omega

/-- Witness for C2 (amended) at a running state with 2 s remaining and a
tick 0.5 s later: remaining stays at least 1 s, so the state stays
`Running`. -/
theorem tick_running_transitions_witness :
    (update { state := State.Running, mode := Mode.Work,
              timer := 2000000000, last_tick := 0 }
      (PomodoroMessage.Tick 500000000)).state = State.Running :=
  ((tick_running_transitions
      { state := State.Running, mode := Mode.Work,
        timer := 2000000000, last_tick := 0 } 500000000 rfl).2.1) (by decide)

/-- Counterexample to C3 as stated: from an `Idle` state, applying `Pause`
does not leave the entire state unchanged — the run state changes from
`Idle` to `Paused`. -/
theorem pause_from_idle_changes_state_counterexample :
    update { state := State.Idle, mode := Mode.Work,
             timer := WORK, last_tick := 0 } PomodoroMessage.Pause ≠
      { state := State.Idle, mode := Mode.Work,
        timer := WORK, last_tick := 0 } := by
  decide

/-- C3 (amended): applying `Pause` sets `run_state` to `Paused` and leaves
`remaining`, `mode` (and `last_tick`) unchanged; when the prior run state
is already `Paused`, applying `Pause` leaves the entire state unchanged,
and applying `Pause` twice equals applying it once.  (From `Idle` it does
change the run state, to `Paused`.) -/
theorem pause_sets_paused_frames_rest (s : Pomodoro) :
    (update s PomodoroMessage.Pause).state = State.Paused ∧
    (update s PomodoroMessage.Pause).timer = s.timer ∧
    (update s PomodoroMessage.Pause).mode = s.mode ∧
    (update s PomodoroMessage.Pause).last_tick = s.last_tick ∧
    (s.state = State.Paused → update s PomodoroMessage.Pause = s) ∧
    update (update s PomodoroMessage.Pause) PomodoroMessage.Pause =
      update s PomodoroMessage.Pause := by
  obtain ⟨st, m, t, lt⟩ := s
  refine ⟨rfl, rfl, rfl, rfl, ?_, rfl⟩
  intro h
  simp only at h
  subst h
  rfl

/-- Witness for C3 (amended): from a concrete `Paused` state, `Pause` is a
full no-op. -/
theorem pause_sets_paused_frames_rest_witness :
    update { state := State.Paused, mode := Mode.Work,
             timer := WORK, last_tick := 0 } PomodoroMessage.Pause =
      { state := State.Paused, mode := Mode.Work,
        timer := WORK, last_tick := 0 } :=
  (pause_sets_paused_frames_rest
    { state := State.Paused, mode := Mode.Work,
      timer := WORK, last_tick := 0 }).2.2.2.2.1 rfl

/-- C9: after a `Tick` processed while `Running`, the run state is `Idle`
exactly when the decremented remaining holds zero whole seconds (is below
1 s); in particular the controller can enter `Idle` with a strictly
positive remaining below one second. -/
theorem tick_idle_iff_subsecond (s : Pomodoro) (now : Nat)
    (h : s.state = State.Running) :
    ((update s (PomodoroMessage.Tick now)).state = State.Idle ↔
      (update s (PomodoroMessage.Tick now)).timer < nanosPerSec) ∧
    (∃ s0 : Pomodoro, ∃ n0 : Nat, s0.state = State.Running ∧
      0 < (update s0 (PomodoroMessage.Tick n0)).timer ∧
      (update s0 (PomodoroMessage.Tick n0)).state = State.Idle) := by
  constructor
  · obtain ⟨st, m, t, lt⟩ := s
    simp only at h
    subst h
    simp only [update]
    constructor
    · intro hidle
      by_contra hge
      rw [if_neg] at hidle
      · exact State.noConfusion hidle
      · intro hz
        exact absurd ((asSecs_eq_zero_iff _).mp hz) hge
    · intro hlt
      rw [if_pos ((asSecs_eq_zero_iff _).mpr hlt)]
  · refine ⟨{ state := State.Running, mode := Mode.Work,
              timer := 1500000000, last_tick := 0 }, 1000000000,
            rfl, ?_, ?_⟩ <;> decide

/-- Witness for C9 at a running state with 1 s remaining and a tick 0.5 s
later: remaining drops below 1 s, so the state is `Idle`. -/
theorem tick_idle_iff_subsecond_witness :
    (update { state := State.Running, mode := Mode.Work,
              timer := 1000000000, last_tick := 0 }
      (PomodoroMessage.Tick 500000000)).state = State.Idle :=
  ((tick_idle_iff_subsecond
      { state := State.Running, mode := Mode.Work,
        timer := 1000000000, last_tick := 0 } 500000000 rfl).1).mpr
    (by decide)

/-- The invariant behind claim C7: the remaining time never exceeds the
canonical duration of the current mode. -/
def Inv (s : Pomodoro) : Prop := s.timer ≤ durationFor s.mode

theorem update_preserves_inv (s : Pomodoro) (e : PomodoroMessage)
    (h : Inv s) : Inv (update s e) := by
  obtain ⟨st, m, t, lt⟩ := s
  unfold Inv at *
  cases e with
  | Start now => exact Nat.le_refl _
  | Pause => exact h
  | Resume now => exact h
  | SwitchMode mode => exact Nat.le_refl _
  | Reset => exact Nat.le_refl _
  | Tick now =>
      cases st with
      | Idle => exact h
      | Paused => exact h
      | Running =>
          show t - (now - lt) ≤ durationFor m
          simp only at h
          omega

theorem foldl_preserves_inv (events : List PomodoroMessage)
    (s : Pomodoro) (h : Inv s) : Inv (events.foldl update s) := by
  induction events generalizing s with
  | nil => exact h
  | cons e es ih => exact ih (update s e) (update_preserves_inv s e h)

theorem durationFor_le_work (m : Mode) : durationFor m ≤ fromSecs 1500 := by
  cases m <;> decide

/-- C7: for every sequence of events applied to the initial controller
(`mode = Work`, `run_state = Idle`, `remaining = 1500 s`), `remaining`
stays within `[0, canonical_duration(current mode)]`, and hence within
`[0, 1500 s]`. -/
theorem remaining_bounded_along_all_runs
    (now : Nat) (events : List PomodoroMessage) :
    0 ≤ (events.foldl update (new now)).timer ∧
    (events.foldl update (new now)).timer ≤
      durationFor (events.foldl update (new now)).mode ∧
    (events.foldl update (new now)).timer ≤ fromSecs 1500 := by
  have h : Inv (events.foldl update (new now)) :=
    foldl_preserves_inv events (new now) (Nat.le_refl _)
  exact ⟨Nat.zero_le _, h, Nat.le_trans h (durationFor_le_work _)⟩

theorem padStart2_toString_eq_pad :
    ∀ n : Nat, n < 60 →
      padStart2 (toString n) =
        (if n < 10 then "0" ++ toString n else toString n) := by
  decide

/-- C8: for every state, the displayed timer text is the remaining
duration's whole seconds formatted as `MM:SS` with minutes
`(total_seconds mod 3600) / 60` and seconds `total_seconds mod 60`, both
zero-padded to two digits. -/
theorem view_formats_whole_seconds_mm_ss (s : Pomodoro) :
    viewTimerText s = specTimerText (asSecs s.timer) := by
  have hm : (asSecs s.timer % 3600) / 60 < 60 := by omega
  have hs : asSecs s.timer % 60 < 60 := by omega
  show padStart2 (toString ((asSecs s.timer % 3600) / 60)) ++ ":" ++
      padStart2 (toString (asSecs s.timer % 60)) =
    specTimerText (asSecs s.timer)
  unfold specTimerText
  rw [padStart2_toString_eq_pad _ hm, padStart2_toString_eq_pad _ hs]

end RustyPomodoro
